import Mathlib

/-!
Shallow embedding of the exam-session controller of CODE-ASSESS-FINAL
(`src/components/AccessCodeEntry.tsx`: the `ExamInterface` component) and of
the student-registration submit handler (`StudentRegistration.handleSubmit`).

Times are integer milliseconds since the epoch (`Int`); JavaScript
`Math.floor(x / d)` on integer inputs is `Int.fdiv x d`.  Durable stores
(the `responses` and `submissions` tables) are association lists with
keyed-upsert semantics.  All durable writes are modelled as succeeding.
-/

/-- JavaScript `String.prototype.toLowerCase`, restricted to the characters
the program actually stores (option labels and answer keys). -/
def lowerStr (s : String) : String := String.mk (s.data.map Char.toLower)

/-- JavaScript `String.prototype.trim` (strip leading and trailing
whitespace). -/
def trimStr (s : String) : String :=
  String.mk
    (((s.data.dropWhile Char.isWhitespace).reverse.dropWhile
        Char.isWhitespace).reverse)

/-- JavaScript `String.prototype.includes` applied to a one-character
search string. -/
def containsChar (s : String) (c : Char) : Bool := s.data.contains c

/-- A loaded question (`interface Question`). -/
structure Question where
  id : String
  examId : String
  questionText : String
  optionA : String
  optionB : String
  optionC : String
  optionD : String
  correctAnswer : String
  topicTag : String
  questionOrder : Nat
deriving DecidableEq, Repr

/-- `Answer['status']`. -/
inductive AnswerStatus where
  | answered
  | notAnswered
  | markedForReview
deriving DecidableEq, Repr

/-- An in-memory answer record (`interface Answer`). -/
structure Answer where
  questionId : String
  selectedAnswer : String
  status : AnswerStatus
  timeSpent : Int
deriving DecidableEq, Repr

/-- A durable row of the `responses` table. -/
structure ResponseRecord where
  submissionId : String
  questionId : String
  selectedAnswer : String
  correctAnswer : String
  isCorrect : Bool
  timeTakenSeconds : Int
deriving DecidableEq, Repr

/-- A durable row of the `submissions` table. -/
structure SubmissionRow where
  id : String
  studentId : String
  examId : String
  totalQuestions : Nat
  totalScore : Nat
  timeTakenMinutes : Int
  submittedAt : Option Int
deriving DecidableEq, Repr

/-- Supabase `upsert` on the `responses` table with
`onConflict: 'submission_id,question_id'`: replace the row with the same
key if one exists, otherwise insert. -/
def upsertResponse (db : List ResponseRecord) (r : ResponseRecord) : List ResponseRecord :=
  if db.any (fun x => x.submissionId == r.submissionId && x.questionId == r.questionId) then
    db.map (fun x =>
      if x.submissionId == r.submissionId && x.questionId == r.questionId then r else x)
  else
    db ++ [r]

/-- The question keys of the durable answer records belonging to one
submission, in storage order. -/
def durableKeys (sid : String) (db : List ResponseRecord) : List String :=
  (db.filter (fun r => r.submissionId == sid)).map ResponseRecord.questionId

/-- JavaScript `Map.prototype.set` on the `answers` map (replace the value
under an existing key, otherwise append the new binding). -/
def mapSet (m : List (String × Answer)) (k : String) (v : Answer) :
    List (String × Answer) :=
  if m.any (fun p => p.1 == k) then
    m.map (fun p => if p.1 == k then (k, v) else p)
  else
    m ++ [(k, v)]

/-- JavaScript `Map.prototype.get` on the `answers` map. -/
def mapGet (m : List (String × Answer)) (k : String) : Option Answer :=
  (m.find? (fun p => p.1 == k)).map Prod.snd

/-- JavaScript array indexing `l[i]` with a possibly out-of-range or
negative index: `none` models `undefined`. -/
def listGetI {α : Type} (l : List α) (i : Int) : Option α :=
  if i < 0 then none else l[i.toNat]?

/-- The component state of `ExamInterface`, together with the durable
stores it writes and observable effect logs (toasts shown to the user,
console errors, `onComplete` invocation).  `finalizeCount` counts how many
times the finalize sequence of `submitExam` (score computation, sweep,
final submission update) has executed.  `scheduledAutoSubmits` counts
`setTimeout(() => submitExam(true), 2000)` callbacks that have been
scheduled but not yet delivered. -/
structure ExamState where
  examStartTime : Int
  examEndTime : Int
  questions : List Question
  currentQuestionIndex : Int
  answers : List (String × Answer)
  timeRemaining : Int
  isFullscreenRef : Bool
  pendingAutoSubmit : Bool
  questionStartTime : Int
  submissionId : Option String
  responsesDb : List ResponseRecord
  submissionRow : Option SubmissionRow
  toasts : List String
  consoleErrors : List String
  finalizeCount : Nat
  completedCalled : Bool
  scheduledAutoSubmits : Nat
deriving DecidableEq, Repr

/-- The score loop of `submitExam` (lines 522–533): count the in-memory
answers with a truthy `selectedAnswer` and status `'answered'` whose
selection strictly (`===`, case-sensitively) equals the question's
`correctAnswer`. -/
def codeScore (questions : List Question) (answers : List (String × Answer)) : Nat :=
  (answers.map Prod.snd).countP (fun a =>
    a.selectedAnswer != "" && a.status == AnswerStatus.answered &&
      (match questions.find? (fun q => q.id == a.questionId) with
       | some q => a.selectedAnswer == q.correctAnswer
       | none => false))

/-- The explicit not-answered record the sweep writes for a question with
no in-memory answer (lines 539–551). -/
def sweepRecord (sid : String) (q : Question) : ResponseRecord :=
  { submissionId := sid
    questionId := q.id
    selectedAnswer := "n"
    correctAnswer := lowerStr q.correctAnswer
    isCorrect := false
    timeTakenSeconds := 0 }

/-- The sweep loop of `submitExam` (lines 536–555): upsert an explicit
not-answered record for every loaded question without an in-memory answer. -/
def sweepUnanswered (sid : String) (questions : List Question)
    (answers : List (String × Answer)) (db : List ResponseRecord) :
    List ResponseRecord :=
  (questions.filter (fun q => !(answers.any (fun p => p.1 == q.id)))).foldl
    (fun acc q => upsertResponse acc (sweepRecord sid q)) db

/-- `submitExam(autoSubmit)` (lines 515–602).  Without a `submissionId` it
only logs to the console and returns; otherwise it runs the finalize
sequence: score, sweep, time-taken, and the final `submissions` update. -/
def submitExam (now : Int) (autoSubmit : Bool) (s : ExamState) : ExamState :=
  match s.submissionId with
  | none =>
      { s with consoleErrors := s.consoleErrors ++ ["No submission ID available"] }
  | some sid =>
      let totalScore := codeScore s.questions s.answers
      let db := sweepUnanswered sid s.questions s.answers s.responsesDb
      let timeTakenMinutes := Int.fdiv (now - s.examStartTime) 60000
      let row := s.submissionRow.map (fun r =>
        if r.id == sid then
          { r with totalScore := totalScore, timeTakenMinutes := timeTakenMinutes,
                   submittedAt := some now }
        else r)
      { s with responsesDb := db
               submissionRow := row
               toasts := s.toasts ++
                 [if autoSubmit then "Exam Auto-Submitted" else "Exam Submitted"]
               finalizeCount := s.finalizeCount + 1
               completedCalled := true }

/-- `saveAnswer(questionId, selectedAnswer, status)` (lines 423–475): put
the record into the in-memory map, then (only with a `submissionId`)
upsert the durable response with lower-cased selection and correctness. -/
def saveAnswer (now : Int) (questionId selectedAnswer : String)
    (status : AnswerStatus) (s : ExamState) : ExamState :=
  let timeSpent : Int := now - s.questionStartTime
  let answerData : Answer :=
    { questionId := questionId, selectedAnswer := selectedAnswer,
      status := status, timeSpent := timeSpent }
  let s1 := { s with answers := mapSet s.answers questionId answerData }
  match s1.submissionId with
  | none =>
      { s1 with
          toasts := s1.toasts ++
            ["Submission Error: No submission ID available. Please refresh or contact support."]
          consoleErrors := s1.consoleErrors ++
            ["Attempted to save answer without a submission ID"] }
  | some sid =>
      let q? := s1.questions.find? (fun q => q.id == questionId)
      let correctAnswerLower :=
        match q? with
        | some q => lowerStr q.correctAnswer
        | none => ""
      let selectedAnswerLower :=
        if selectedAnswer == "" then "n" else lowerStr selectedAnswer
      let isCorrect :=
        match q? with
        | some _ =>
            selectedAnswerLower != "" && selectedAnswerLower != "n" &&
              selectedAnswerLower == correctAnswerLower
        | none => false
      let rec0 : ResponseRecord :=
        { submissionId := sid, questionId := questionId,
          selectedAnswer := selectedAnswerLower,
          correctAnswer := correctAnswerLower,
          isCorrect := isCorrect,
          timeTakenSeconds := Int.fdiv timeSpent 1000 }
      { s1 with responsesDb := upsertResponse s1.responsesDb rec0 }

/-- `handleAnswerSelect(option)` (lines 477–489): abort with a toast when
no `submissionId` exists; otherwise save the current question's answer as
`'answered'`.  `none` models the TypeError of reading `currentQuestion.id`
when the index is out of range. -/
def handleAnswerSelect (now : Int) (option : String) (s : ExamState) :
    Option ExamState :=
  match s.submissionId with
  | none =>
      some { s with
        toasts := s.toasts ++
          ["Submission Error: No submission ID available. Please refresh or contact support."]
        consoleErrors := s.consoleErrors ++
          ["Attempted to select answer without a submission ID"] }
  | some _ =>
      match listGetI s.questions s.currentQuestionIndex with
      | some q => some (saveAnswer now q.id option AnswerStatus.answered s)
      | none => none

/-- `markForReview()` (lines 491–508): abort with a toast when no
`submissionId` exists; otherwise save the current question with its
existing selection (JavaScript `currentAnswer?.selectedAnswer || ''`) and
status `'marked-for-review'`. -/
def markForReview (now : Int) (s : ExamState) : Option ExamState :=
  match s.submissionId with
  | none =>
      some { s with
        toasts := s.toasts ++
          ["Submission Error: No submission ID available. Please refresh or contact support."]
        consoleErrors := s.consoleErrors ++
          ["Attempted to mark for review without a submission ID"] }
  | some _ =>
      match listGetI s.questions s.currentQuestionIndex with
      | some q =>
          let sel :=
            match mapGet s.answers q.id with
            | some a => a.selectedAnswer
            | none => ""
          some (saveAnswer now q.id sel AnswerStatus.markedForReview s)
      | none => none

/-- `navigateToQuestion(index)` (lines 510–513): set the current index to
the requested value and reset the per-question time anchor.  The source
performs no bounds check. -/
def navigateToQuestion (now : Int) (index : Int) (s : ExamState) : ExamState :=
  { s with currentQuestionIndex := index, questionStartTime := now }

/-- The `setTimeRemaining` updater of the timer effect (lines 330–338):
given the previous remaining value, return the new value together with
whether `submitExam(true)` was invoked (the expiry signal). -/
def timerReducer (prev : Int) : Int × Bool :=
  if prev ≤ 1 then (0, true) else (prev - 1, false)

/-- Number of expiry signals (invocations of `submitExam(true)`) produced
by `k` consecutive 1-second ticks starting from remaining value `r`. -/
def expirySignals (r : Int) : Nat → Nat
  | 0 => 0
  | k + 1 =>
      (if (timerReducer r).2 then 1 else 0) + expirySignals (timerReducer r).1 k

/-- One 1-second tick of the timer effect applied to the whole component
state: run the reducer, and when it fires run `submitExam(true)`. -/
def timerTick (now : Int) (s : ExamState) : ExamState :=
  let next := timerReducer s.timeRemaining
  let s1 := if next.2 then submitExam now true s else s
  { s1 with timeRemaining := next.1 }

/-- `handleFullscreenChange` (lines 356–376) at an event where the
platform reports fullscreen state `isNowFullscreen`.  An exit while
previously compliant toasts the violation, then either schedules
`submitExam(true)` (identity present) or sets the pending flag. -/
def handleFullscreenChange (isNowFullscreen : Bool) (s : ExamState) : ExamState :=
  if !isNowFullscreen && s.isFullscreenRef then
    let s1 := { s with
      isFullscreenRef := false
      toasts := s.toasts ++
        ["Fullscreen Exit Detected: Your exam will be auto-submitted due to policy violation."] }
    match s1.submissionId with
    | some _ => { s1 with scheduledAutoSubmits := s1.scheduledAutoSubmits + 1 }
    | none => { s1 with pendingAutoSubmit := true }
  else s

/-- The replay effect (lines 406–411), run whenever `submissionId`
changes: with an identity and a pending auto-submit, schedule
`submitExam(true)` and clear the pending flag. -/
def pendingReplayEffect (s : ExamState) : ExamState :=
  if s.submissionId.isSome && s.pendingAutoSubmit then
    { s with scheduledAutoSubmits := s.scheduledAutoSubmits + 1,
             pendingAutoSubmit := false }
  else s

/-- Successful `createSubmission` (lines 292–326) setting `submissionId`,
followed by the replay effect that the state change triggers. -/
def createSubmissionSuccess (sid : String) (s : ExamState) : ExamState :=
  pendingReplayEffect { s with submissionId := some sid }

/-- The listener-registration effect (lines 388–404): the
fullscreen-change and visibility listeners are attached only while a
submission identity exists (`if (!submissionId) return`). -/
def listenersAttached (s : ExamState) : Bool := s.submissionId.isSome

/-- Delivery of a platform fullscreen-change event to the component:
`handleFullscreenChange` runs only if the listeners are currently
attached (lines 388–404); otherwise the event is not observed at all. -/
def fullscreenEvent (isNowFullscreen : Bool) (s : ExamState) : ExamState :=
  if listenersAttached s then handleFullscreenChange isNowFullscreen s else s

/-- Delivery of one scheduled `setTimeout(() => submitExam(true), 2000)`
callback, if any is outstanding. -/
def runScheduledAutoSubmit (now : Int) (s : ExamState) : ExamState :=
  if s.scheduledAutoSubmits > 0 then
    submitExam now true { s with scheduledAutoSubmits := s.scheduledAutoSubmits - 1 }
  else s

/-- A sequence of `submit` triggers delivered in order; each Boolean is
the `autoSubmit` argument of the corresponding `submitExam` call. -/
def runSubmitTriggers (now : Int) (s : ExamState) : List Bool → ExamState
  | [] => s
  | b :: bs => runSubmitTriggers now (submitExam now b s) bs

/-- Observable outcome of the question-loading effect `fetchQuestions`
(lines 224–289): which state setters ran, which toasts were shown, and
whether `onComplete` was called. -/
structure LoadEffects where
  timeRemaining : Option Int
  questions : Option (List Question)
  toasts : List String
  completedCalled : Bool
deriving DecidableEq, Repr

/-- `fetchQuestions` (lines 224–289) on a successful fetch returning
`fetched`: compute remaining seconds; if the exam already ended, toast and
call `onComplete`; otherwise set the timer and either set the questions or
toast "No Questions Found" (without calling `onComplete`). -/
def fetchQuestionsStep (now examEndTime : Int) (fetched : List Question) : LoadEffects :=
  let remainingSeconds := max 0 (Int.fdiv (examEndTime - now) 1000)
  if remainingSeconds ≤ 0 then
    { timeRemaining := none, questions := none,
      toasts := ["Exam Ended: This exam has already ended."],
      completedCalled := true }
  else if fetched.length > 0 then
    { timeRemaining := some remainingSeconds, questions := some fetched,
      toasts := [], completedCalled := false }
  else
    { timeRemaining := some remainingSeconds, questions := none,
      toasts := ["No Questions Found: This exam has no questions available."],
      completedCalled := false }

/-- What the component renders (lines 616–618): the loading placeholder
whenever zero questions are loaded, the active exam screen otherwise. -/
inductive ExamView where
  | loading
  | active
deriving DecidableEq, Repr

def renderView (questions : List Question) : ExamView :=
  if questions.length = 0 then ExamView.loading else ExamView.active

/-- The claim's scoring rule stated from the spec's words: count of
AnswerRecords with status `answered` whose selected option equals the
question's correct option compared case-insensitively. -/
def specScoreCaseInsensitive (questions : List Question)
    (answers : List (String × Answer)) : Nat :=
  (answers.map Prod.snd).countP (fun a =>
    a.status == AnswerStatus.answered &&
      (match questions.find? (fun q => q.id == a.questionId) with
       | some q => lowerStr a.selectedAnswer == lowerStr q.correctAnswer
       | none => false))

/-- The amended scoring rule stated independently of `submitExam`: count
of answered records with a nonempty selection that equals the correct
option of some loaded question with the record's question id, compared
case-sensitively. -/
def specScoreCaseSensitive (questions : List Question)
    (answers : List (String × Answer)) : Nat :=
  ((answers.map Prod.snd).filter (fun a =>
      a.status == AnswerStatus.answered && a.selectedAnswer != "" &&
        questions.any (fun q =>
          q.id == a.questionId && a.selectedAnswer == q.correctAnswer))).length

namespace StudentRegistration

/-- A durable row of the `students` table. -/
structure StudentRec where
  id : String
  name : String
  email : String
  rollNumber : String
deriving DecidableEq, Repr

/-- A durable row of the `submissions` table, as the duplicate-submission
check reads it. -/
structure SubmissionRec where
  studentId : String
  examId : String
deriving DecidableEq, Repr

/-- The registration form data. -/
structure RegForm where
  name : String
  email : String
  rollNumber : String
deriving DecidableEq, Repr

/-- The observable outcome of one registration submit. -/
inductive RegOutcome where
  | incompleteInfo
  | invalidEmail
  | alreadySubmitted
  | success (name email rollNumber id : String)
deriving DecidableEq, Repr

/-- `StudentRegistration.handleSubmit` (part_000 lines 29–131) on
successful database calls.  `newId` is the identity the `students` insert
would generate for a newly created student.  Returns the outcome and the
`students` table after the call. -/
def handleSubmit (students : List StudentRec) (submissions : List SubmissionRec)
    (examId : String) (f : RegForm) (newId : String) :
    RegOutcome × List StudentRec :=
  if trimStr f.name == "" || trimStr f.email == "" || trimStr f.rollNumber == "" then
    (RegOutcome.incompleteInfo, students)
  else if !(containsChar f.email '@') then
    (RegOutcome.invalidEmail, students)
  else
    let found := students.find? (fun st => st.rollNumber == f.rollNumber)
    let studentId :=
      match found with
      | some st => st.id
      | none => newId
    let students1 :=
      match found with
      | some _ => students
      | none => students ++
          [{ id := newId, name := f.name, email := f.email,
             rollNumber := f.rollNumber }]
    if submissions.any (fun sb => sb.studentId == studentId && sb.examId == examId) then
      (RegOutcome.alreadySubmitted, students1)
    else
      (RegOutcome.success f.name f.email f.rollNumber studentId, students1)

end StudentRegistration

/-! Concrete fixture states, built through the embedded operations where a
claim needs a reachable configuration. -/

def exQ1 : Question :=
  { id := "q1", examId := "e1", questionText := "t1", optionA := "a",
    optionB := "b", optionC := "c", optionD := "d", correctAnswer := "b",
    topicTag := "tag", questionOrder := 1 }

def exQ2 : Question :=
  { exQ1 with
      id := "q2"
      questionText := "t2"
      correctAnswer := "C"
      questionOrder := 2 }

def exRow : SubmissionRow :=
  { id := "s1", studentId := "st1", examId := "e1", totalQuestions := 2,
    totalScore := 0, timeTakenMinutes := 0, submittedAt := none }

/-- A session in the active state: two loaded questions, the durable
submission identity `"s1"` present, no answers yet. -/
def exState : ExamState :=
  { examStartTime := 60000, examEndTime := 100000,
    questions := [exQ1, exQ2], currentQuestionIndex := 0,
    answers := [], timeRemaining := 40,
    isFullscreenRef := true, pendingAutoSubmit := false,
    questionStartTime := 0, submissionId := some "s1",
    responsesDb := [], submissionRow := some exRow,
    toasts := [], consoleErrors := [], finalizeCount := 0,
    completedCalled := false, scheduledAutoSubmits := 0 }

/-- The same session before `createSubmission` has completed (no durable
submission identity yet). -/
def exStateNoId : ExamState := { exState with submissionId := none, submissionRow := none }

/-- `exState` after the user selects option `"B"` on question `q1`
(whose stored correct answer is the lower-case `"b"`). -/
def exAnswered : ExamState := (handleAnswerSelect 5 "B" exState).getD exState

/-! Theorems -/

/-- C3, counterexample: the tick that takes remaining from 1 to 0 fires the
expiry signal, but a further tick while remaining is already 0 fires it
again, so two consecutive ticks starting at remaining = 1 produce two
expiry signals, not one. -/
theorem timer_expiry_not_once :
    timerReducer 1 = (0, true) ∧ timerReducer 0 = (0, true) ∧
    expirySignals 1 2 = 2 := by decide

/-- C3 (amended): the countdown value never becomes negative, but the
expiry signal (the `submitExam(true)` call of the timer effect) fires at
every tick at which the previous remaining value is at most 1 — once when
remaining first reaches 0 and again on every subsequent tick while it
stays 0 — and each such tick runs `submitExam(true)` on the state. -/
theorem timer_expiry_refires_while_zero (r : Int) (k : Nat) (h : 0 ≤ r) :
    0 ≤ (timerReducer r).1 ∧ ((timerReducer r).2 = true ↔ r ≤ 1) ∧
    expirySignals 0 k = k ∧
    (∀ (now : Int) (s : ExamState), s.timeRemaining ≤ 1 →
      timerTick now s = { submitExam now true s with timeRemaining := 0 }) := by
  refine ⟨?_, ?_, ?_, ?_⟩
  · by_cases hr : r ≤ 1 <;> simp [timerReducer, hr] <;> omega
  · by_cases hr : r ≤ 1 <;> simp [timerReducer, hr]
  · induction k with
    | zero => rfl
    | succ k ih => simp only [expirySignals, timerReducer] at *; simp at *; omega
  · intro now s hs
    simp [timerTick, timerReducer, hs]

/-- C3 witness: the amended theorem at remaining = 5 over 3 ticks from 0. -/
theorem timer_expiry_refires_while_zero_witness :
    0 ≤ (timerReducer 5).1 ∧ ((timerReducer 5).2 = true ↔ (5 : Int) ≤ 1) ∧
    expirySignals 0 3 = 3 ∧
    (∀ (now : Int) (s : ExamState), s.timeRemaining ≤ 1 →
      timerTick now s = { submitExam now true s with timeRemaining := 0 }) :=
  timer_expiry_refires_while_zero 5 3 (by decide)

/-- C6, counterexample: with a live exam (10 remaining seconds) whose
fetch returns zero questions, the code shows the "No Questions Found"
toast but does not call `onComplete`, and with zero questions loaded the
component keeps rendering the loading placeholder. -/
theorem no_questions_not_completed :
    (fetchQuestionsStep 0 10000 []).completedCalled = false ∧
    (fetchQuestionsStep 0 10000 []).toasts =
      ["No Questions Found: This exam has no questions available."] ∧
    (fetchQuestionsStep 0 10000 []).questions = none ∧
    renderView [] = ExamView.loading := by decide

/-- C6 (amended): when the question source returns zero questions for a
not-yet-ended exam, the condition is reported to the user and the session
never enters the active state, but control is not handed back: `onComplete`
is not called and the session keeps rendering the loading view. -/
theorem no_questions_reported_stays_loading (now endT : Int)
    (h : 0 < Int.fdiv (endT - now) 1000) :
    (fetchQuestionsStep now endT []).toasts =
      ["No Questions Found: This exam has no questions available."] ∧
    (fetchQuestionsStep now endT []).completedCalled = false ∧
    (fetchQuestionsStep now endT []).questions = none ∧
    renderView [] = ExamView.loading := by
  have h1 : ¬ (max 0 (Int.fdiv (endT - now) 1000) ≤ 0) := by omega
  simp [fetchQuestionsStep, h1, renderView]

/-- C6 witness: the amended theorem at load time 0 for an exam ending at
time 10000. -/
theorem no_questions_reported_stays_loading_witness :
    0 < Int.fdiv (10000 - 0) 1000 ∧
    ((fetchQuestionsStep 0 10000 []).toasts =
      ["No Questions Found: This exam has no questions available."] ∧
    (fetchQuestionsStep 0 10000 []).completedCalled = false ∧
    (fetchQuestionsStep 0 10000 []).questions = none ∧
    renderView [] = ExamView.loading) :=
  ⟨by decide, no_questions_reported_stays_loading 0 10000 (by decide)⟩

/-- C7, counterexample: in `exAnswered` the recorded exam start time
(60000 ms) is later than the finalization time (0 ms), and the committed
time-taken is the negative value −1 minute. -/
theorem time_taken_committed_negative :
    ((submitExam 0 false exAnswered).submissionRow.map
      SubmissionRow.timeTakenMinutes) = some (-1) ∧ (-1 : Int) < 0 := by decide

/-- C7 (amended): at finalization the committed time-taken in minutes
equals floor((now − exam start time) / 60s) with floor taken towards
negative infinity; it is guaranteed non-negative only when the recorded
exam start time is not later than the finalization time. -/
theorem committed_time_taken_is_floor (now : Int) (b : Bool) (s : ExamState)
    (sid : String) (row : SubmissionRow)
    (hid : s.submissionId = some sid) (hrow : s.submissionRow = some row)
    (hrid : row.id = sid) :
    ∃ row2, (submitExam now b s).submissionRow = some row2 ∧
      row2.timeTakenMinutes = Int.fdiv (now - s.examStartTime) 60000 ∧
      (s.examStartTime ≤ now → 0 ≤ row2.timeTakenMinutes) := by
  refine ⟨{ row with
              totalScore := codeScore s.questions s.answers
              timeTakenMinutes := Int.fdiv (now - s.examStartTime) 60000
              submittedAt := some now }, ?_, rfl, ?_⟩
  · simp [submitExam, hid, hrow, hrid]
  · intro hle
    exact Int.fdiv_nonneg (by omega) (by norm_num)

/-- C7 witness: the amended theorem on `exState` finalized at time
120000 ms (one minute after the 60000 ms start). -/
theorem committed_time_taken_is_floor_witness :
    exState.submissionId = some "s1" ∧ exState.submissionRow = some exRow ∧
    exRow.id = "s1" ∧
    (∃ row2, (submitExam 120000 false exState).submissionRow = some row2 ∧
      row2.timeTakenMinutes = Int.fdiv (120000 - exState.examStartTime) 60000 ∧
      (exState.examStartTime ≤ 120000 → 0 ≤ row2.timeTakenMinutes)) :=
  ⟨rfl, rfl, rfl,
   committed_time_taken_is_floor 120000 false exState "s1" exRow rfl rfl rfl⟩

/-- C8, counterexample: with two loaded questions, `navigateToQuestion 5`
sets the current index to 5, which is outside [0, 2), and indexing the
question array there yields `undefined` (the render then dereferences it). -/
theorem navigate_no_bounds_check :
    (navigateToQuestion 7 5 exState).currentQuestionIndex = 5 ∧
    ¬ ((navigateToQuestion 7 5 exState).currentQuestionIndex <
        (exState.questions.length : Int)) ∧
    listGetI (navigateToQuestion 7 5 exState).questions
      (navigateToQuestion 7 5 exState).currentQuestionIndex = none := by decide

/-- C8 (amended): `navigateToQuestion` performs no bounds check: it sets
the current index to exactly the requested value and resets the
per-question time anchor, leaving questions and answers unchanged; the
resulting index lies in [0, n) only when the request already does. -/
theorem navigate_sets_requested_index (now i : Int) (s : ExamState) :
    (navigateToQuestion now i s).currentQuestionIndex = i ∧
    (navigateToQuestion now i s).questionStartTime = now ∧
    (navigateToQuestion now i s).questions = s.questions ∧
    (navigateToQuestion now i s).answers = s.answers ∧
    (0 ≤ i → i < (s.questions.length : Int) →
      0 ≤ (navigateToQuestion now i s).currentQuestionIndex ∧
      (navigateToQuestion now i s).currentQuestionIndex <
        (s.questions.length : Int)) :=
  ⟨rfl, rfl, rfl, rfl, fun h1 h2 => ⟨h1, h2⟩⟩

/-- C8 witness: the amended theorem at the in-range request 1 on
`exState`. -/
theorem navigate_sets_requested_index_witness :
    (navigateToQuestion 7 1 exState).currentQuestionIndex = 1 ∧
    (navigateToQuestion 7 1 exState).questionStartTime = 7 ∧
    (navigateToQuestion 7 1 exState).questions = exState.questions ∧
    (navigateToQuestion 7 1 exState).answers = exState.answers ∧
    (0 ≤ (1 : Int) → (1 : Int) < (exState.questions.length : Int) →
      0 ≤ (navigateToQuestion 7 1 exState).currentQuestionIndex ∧
      (navigateToQuestion 7 1 exState).currentQuestionIndex <
        (exState.questions.length : Int)) :=
  navigate_sets_requested_index 7 1 exState

/-- C9, counterexample: `submitExam` invoked before the submission
identity exists aborts and logs to the console, but shows no toast: the
user-visible toast list is unchanged, so the precondition failure is not
reported to the user. -/
theorem submit_precondition_silent_to_user :
    (submitExam 0 false exStateNoId).toasts = exStateNoId.toasts ∧
    (submitExam 0 false exStateNoId).consoleErrors ≠
      exStateNoId.consoleErrors := by decide

/-- C9 (amended): invoked before the submission identity exists,
`handleAnswerSelect` and `markForReview` abort after showing a toast and a
console error and change nothing else, while `submitExam` aborts with only
a console error — no user-visible report — and changes nothing else. -/
theorem precondition_failure_behaviour (now : Int) (opt : String) (b : Bool)
    (s : ExamState) (hid : s.submissionId = none) :
    handleAnswerSelect now opt s = some { s with
      toasts := s.toasts ++
        ["Submission Error: No submission ID available. Please refresh or contact support."],
      consoleErrors := s.consoleErrors ++
        ["Attempted to select answer without a submission ID"] } ∧
    markForReview now s = some { s with
      toasts := s.toasts ++
        ["Submission Error: No submission ID available. Please refresh or contact support."],
      consoleErrors := s.consoleErrors ++
        ["Attempted to mark for review without a submission ID"] } ∧
    submitExam now b s = { s with
      consoleErrors := s.consoleErrors ++ ["No submission ID available"] } := by
  refine ⟨?_, ?_, ?_⟩ <;> simp [handleAnswerSelect, markForReview, submitExam, hid]

/-- C9 witness: the amended theorem on the identity-less state
`exStateNoId`. -/
theorem precondition_failure_behaviour_witness :
    exStateNoId.submissionId = none ∧
    (handleAnswerSelect 3 "A" exStateNoId = some { exStateNoId with
      toasts := exStateNoId.toasts ++
        ["Submission Error: No submission ID available. Please refresh or contact support."],
      consoleErrors := exStateNoId.consoleErrors ++
        ["Attempted to select answer without a submission ID"] } ∧
    markForReview 3 exStateNoId = some { exStateNoId with
      toasts := exStateNoId.toasts ++
        ["Submission Error: No submission ID available. Please refresh or contact support."],
      consoleErrors := exStateNoId.consoleErrors ++
        ["Attempted to mark for review without a submission ID"] } ∧
    submitExam 3 false exStateNoId = { exStateNoId with
      consoleErrors := exStateNoId.consoleErrors ++ ["No submission ID available"] }) :=
  ⟨rfl, precondition_failure_behaviour 3 "A" false exStateNoId rfl⟩

theorem submitExam_submissionId (now : Int) (b : Bool) (s : ExamState) :
    (submitExam now b s).submissionId = s.submissionId := by
  cases h : s.submissionId <;> simp [submitExam, h]

theorem submitExam_finalizeCount_some (now : Int) (b : Bool) (s : ExamState)
    (sid : String) (h : s.submissionId = some sid) :
    (submitExam now b s).finalizeCount = s.finalizeCount + 1 := by
  simp [submitExam, h]

theorem runSubmitTriggers_finalizeCount (now : Int) (bs : List Bool)
    (s : ExamState) (sid : String) (h : s.submissionId = some sid) :
    (runSubmitTriggers now s bs).finalizeCount = s.finalizeCount + bs.length := by
  induction bs generalizing s with
  | nil => simp [runSubmitTriggers]
  | cons b bs ih =>
      have h2 : (submitExam now b s).submissionId = some sid := by
        rw [submitExam_submissionId]; exact h
      rw [runSubmitTriggers, ih (submitExam now b s) h2,
        submitExam_finalizeCount_some now b s sid h]
      simp; omega

theorem submitExam_preserves_submitted (now : Int) (b : Bool) (s : ExamState)
    (sid : String) (r2 : SubmissionRow)
    (hid : s.submissionId = some sid) (hrow : s.submissionRow = some r2)
    (hr : r2.id = sid) :
    ∃ r3, (submitExam now b s).submissionRow = some r3 ∧ r3.id = sid ∧
      r3.submittedAt = some now := by
  refine ⟨{ r2 with
              totalScore := codeScore s.questions s.answers
              timeTakenMinutes := Int.fdiv (now - s.examStartTime) 60000
              submittedAt := some now }, ?_, hr, rfl⟩
  simp [submitExam, hid, hrow, hr]

theorem runSubmitTriggers_preserves_submitted (now : Int) (bs : List Bool)
    (s : ExamState) (sid : String) (r2 : SubmissionRow)
    (hid : s.submissionId = some sid) (hrow : s.submissionRow = some r2)
    (hr : r2.id = sid) (hsub : r2.submittedAt = some now) :
    ∃ r3, (runSubmitTriggers now s bs).submissionRow = some r3 ∧
      r3.id = sid ∧ r3.submittedAt = some now := by
  induction bs generalizing s r2 with
  | nil => exact ⟨r2, by simpa [runSubmitTriggers] using hrow, hr, hsub⟩
  | cons b bs ih =>
      obtain ⟨r3, h3, h3id, h3sub⟩ :=
        submitExam_preserves_submitted now b s sid r2 hid hrow hr
      have hid2 : (submitExam now b s).submissionId = some sid := by
        rw [submitExam_submissionId]; exact hid
      simpa [runSubmitTriggers] using
        ih (submitExam now b s) r3 hid2 h3 h3id h3sub

/-- C1, counterexample: with the submission identity present, two
successive `submit` triggers (one manual, one auto) each run the full
finalize sequence — the finalize count after the pair is 2, and the
second, re-entrant trigger is not a no-op on the state produced by the
first. -/
theorem two_triggers_two_finalizes :
    (runSubmitTriggers 0 exState [false, true]).finalizeCount = 2 ∧
    submitExam 0 true (submitExam 0 false exState) ≠
      submitExam 0 false exState := by decide

/-- C1 (amended): there is no finalize latch.  Every `submit` trigger that
arrives while the submission identity exists runs the full finalize
sequence, so `k` triggers run `k` finalize sequences; each run overwrites
the single submitted-at field, which is non-null (set to the submission
time) after at least one trigger; a trigger arriving with no submission
identity runs no finalize and only logs to the console. -/
theorem submit_triggers_no_latch (now : Int) (s : ExamState) (sid : String)
    (row : SubmissionRow) (bs : List Bool)
    (hid : s.submissionId = some sid) (hrow : s.submissionRow = some row)
    (hrid : row.id = sid) :
    (runSubmitTriggers now s bs).finalizeCount = s.finalizeCount + bs.length ∧
    (bs ≠ [] → ∃ r3, (runSubmitTriggers now s bs).submissionRow = some r3 ∧
      r3.id = sid ∧ r3.submittedAt = some now) ∧
    (∀ (t : ExamState) (b : Bool), t.submissionId = none →
      submitExam now b t =
        { t with consoleErrors := t.consoleErrors ++ ["No submission ID available"] }) := by
  refine ⟨runSubmitTriggers_finalizeCount now bs s sid hid, ?_, ?_⟩
  · intro hne
    match bs, hne with
    | b :: bs2, _ =>
        obtain ⟨r3, h3, h3id, h3sub⟩ :=
          submitExam_preserves_submitted now b s sid row hid hrow hrid
        have hid2 : (submitExam now b s).submissionId = some sid := by
          rw [submitExam_submissionId]; exact hid
        simpa [runSubmitTriggers] using
          runSubmitTriggers_preserves_submitted now bs2 (submitExam now b s)
            sid r3 hid2 h3 h3id h3sub
  · intro t b ht
    simp [submitExam, ht]

/-- C1 witness: the amended theorem on `exState` with the trigger
sequence [manual, auto]. -/
theorem submit_triggers_no_latch_witness :
    (runSubmitTriggers 0 exState [false, true]).finalizeCount =
      exState.finalizeCount + [false, true].length ∧
    (([false, true] : List Bool) ≠ [] → ∃ r3,
      (runSubmitTriggers 0 exState [false, true]).submissionRow = some r3 ∧
      r3.id = "s1" ∧ r3.submittedAt = some 0) ∧
    (∀ (t : ExamState) (b : Bool), t.submissionId = none →
      submitExam 0 b t =
        { t with consoleErrors := t.consoleErrors ++ ["No submission ID available"] }) :=
  submit_triggers_no_latch 0 exState "s1" exRow [false, true] rfl rfl rfl

theorem find_correct_eq_any (qs : List Question) (k sel : String)
    (hnd : (qs.map Question.id).Nodup) :
    (match qs.find? (fun q => q.id == k) with
     | some q => sel == q.correctAnswer
     | none => false) =
    qs.any (fun q => q.id == k && sel == q.correctAnswer) := by
  induction qs with
  | nil => rfl
  | cons q qs ih =>
      simp only [List.map_cons, List.nodup_cons] at hnd
      by_cases hqk : q.id = k
      · have hb : (q.id == k) = true := by simp [hqk]
        rw [@List.find?_cons_of_pos _ (fun q2 => q2.id == k) q qs hb]
        simp only [List.any_cons, hb, Bool.true_and]
        by_cases hsel : sel = q.correctAnswer
        · simp [hsel]
        · have hany : qs.any (fun q2 => q2.id == k && sel == q2.correctAnswer) = false := by
            apply List.any_eq_false.mpr
            intro q2 hq2
            have hne : q2.id ≠ k := fun hk =>
              hnd.1 (List.mem_map.mpr ⟨q2, hq2, hk.trans hqk.symm⟩)
            simp [hne]
          simp [hsel, hany]
      · have hb : (q.id == k) = false := by simp [hqk]
        rw [@List.find?_cons_of_neg _ (fun q2 => q2.id == k) q qs (by simp [hb])]
        simp only [List.any_cons, hb, Bool.false_and, Bool.false_or]
        exact ih hnd.2

theorem codeScore_eq_specScoreCaseSensitive (qs : List Question)
    (answers : List (String × Answer))
    (hnd : (qs.map Question.id).Nodup) :
    codeScore qs answers = specScoreCaseSensitive qs answers := by
  unfold codeScore specScoreCaseSensitive
  rw [← List.countP_eq_length_filter]
  apply List.countP_congr
  intro a _
  rw [← find_correct_eq_any qs a.questionId a.selectedAnswer hnd]
  cases h1 : (a.selectedAnswer != "") <;>
    cases h2 : (a.status == AnswerStatus.answered) <;>
      simp [h1, h2]

/-- C2, counterexample: on question `q1` the stored correct answer is the
lower-case `"b"`; the student selects `"B"`.  The durable answer record is
marked correct (comparison lower-cases both sides), and case-insensitively
the spec's score for this session is 1, yet the committed total score is
0 because the score loop compares with case-sensitive strict equality. -/
theorem score_not_case_insensitive :
    handleAnswerSelect 5 "B" exState = some exAnswered ∧
    ((submitExam 9 false exAnswered).submissionRow.map SubmissionRow.totalScore) =
      some 0 ∧
    specScoreCaseInsensitive exAnswered.questions exAnswered.answers = 1 := by decide

/-- C2 (amended): at finalization the committed total score equals the
number of AnswerRecords with status `answered` and a nonempty selection
whose selected option equals the question's correct option compared
case-SENSITIVELY (strict string equality); only the per-answer durable
`is_correct` flag written by `saveAnswer` uses the case-insensitive
comparison. -/
theorem committed_score_case_sensitive (now : Int) (b : Bool) (s : ExamState)
    (sid : String) (row : SubmissionRow)
    (hid : s.submissionId = some sid) (hrow : s.submissionRow = some row)
    (hrid : row.id = sid) (hnd : (s.questions.map Question.id).Nodup) :
    ∃ row2, (submitExam now b s).submissionRow = some row2 ∧
      row2.totalScore = specScoreCaseSensitive s.questions s.answers := by
  refine ⟨{ row with
              totalScore := codeScore s.questions s.answers
              timeTakenMinutes := Int.fdiv (now - s.examStartTime) 60000
              submittedAt := some now }, ?_, ?_⟩
  · simp [submitExam, hid, hrow, hrid]
  · exact codeScore_eq_specScoreCaseSensitive s.questions s.answers hnd

/-- C2 witness: the amended theorem on the session `exAnswered`. -/
theorem committed_score_case_sensitive_witness :
    (exAnswered.questions.map Question.id).Nodup ∧
    (∃ row2, (submitExam 9 false exAnswered).submissionRow = some row2 ∧
      row2.totalScore = specScoreCaseSensitive exAnswered.questions exAnswered.answers) :=
  ⟨by decide,
   committed_score_case_sensitive 9 false exAnswered "s1" exRow
     (by decide) (by decide) rfl (by decide)⟩

theorem any_key_iff_mem_durableKeys (db : List ResponseRecord) (sid k : String) :
    db.any (fun x => x.submissionId == sid && x.questionId == k) = true ↔
      k ∈ durableKeys sid db := by
  simp only [durableKeys, List.any_eq_true, List.mem_map, List.mem_filter,
    Bool.and_eq_true, beq_iff_eq]
  constructor
  · rintro ⟨x, hx, h1, h2⟩
    exact ⟨x, ⟨hx, h1⟩, h2⟩
  · rintro ⟨x, ⟨hx, h1⟩, h2⟩
    exact ⟨x, hx, h1, h2⟩

theorem sweepFold_append (sid : String) (l : List Question)
    (db : List ResponseRecord)
    (hfresh : ∀ q ∈ l,
      db.any (fun x => x.submissionId == sid && x.questionId == q.id) = false)
    (hnd : (l.map Question.id).Nodup) :
    l.foldl (fun acc q => upsertResponse acc (sweepRecord sid q)) db =
      db ++ l.map (sweepRecord sid) := by
  induction l generalizing db with
  | nil => simp
  | cons q l ih =>
      simp only [List.foldl_cons, List.map_cons]
      have h1 : upsertResponse db (sweepRecord sid q) = db ++ [sweepRecord sid q] := by
        have hf := hfresh q (List.mem_cons_self q l)
        simp only [upsertResponse, sweepRecord, hf]
        simp
      rw [h1, ih (db ++ [sweepRecord sid q]) ?_ ?_]
      · simp
      · intro q2 hq2
        rw [List.any_append]
        have hone : [sweepRecord sid q].any
            (fun x => x.submissionId == sid && x.questionId == q2.id) = false := by
          have hne : q.id ≠ q2.id := by
            simp only [List.map_cons, List.nodup_cons] at hnd
            exact fun he => hnd.1 (List.mem_map.mpr ⟨q2, hq2, he.symm⟩)
          simp [sweepRecord, hne]
        rw [hfresh q2 (List.mem_cons_of_mem _ hq2), hone]
        rfl
      · simp only [List.map_cons, List.nodup_cons] at hnd
        exact hnd.2

theorem length_split_by_answer_keys (qs : List Question)
    (answers : List (String × Answer))
    (hndQ : (qs.map Question.id).Nodup)
    (hndK : (answers.map Prod.fst).Nodup)
    (hsub : ∀ k ∈ answers.map Prod.fst, k ∈ qs.map Question.id) :
    (answers.map Prod.fst).length +
      (qs.filter (fun q => !(answers.any (fun p => p.1 == q.id)))).length =
      qs.length := by
  have hP : ∀ q : Question,
      answers.any (fun p => p.1 == q.id) = true ↔ q.id ∈ answers.map Prod.fst := by
    intro q
    simp [List.any_eq_true, List.mem_map, beq_iff_eq]
  have hsplit := List.length_eq_length_filter_add
    (l := qs) (fun q => answers.any (fun p => p.1 == q.id))
  have hkeys :
      ((qs.filter (fun q => answers.any (fun p => p.1 == q.id))).map Question.id).length =
        (answers.map Prod.fst).length := by
    apply List.Perm.length_eq
    apply (List.perm_ext_iff_of_nodup ?_ hndK).mpr
    · intro k
      constructor
      · intro hk
        obtain ⟨q, hq, hqk⟩ := List.mem_map.mp hk
        obtain ⟨hqs, hpq⟩ := List.mem_filter.mp hq
        exact hqk ▸ (hP q).mp hpq
      · intro hk
        obtain ⟨q, hq, hqk⟩ := List.mem_map.mp (hsub k hk)
        refine List.mem_map.mpr ⟨q, List.mem_filter.mpr ⟨hq, (hP q).mpr ?_⟩, hqk⟩
        rw [hqk]; exact hk
    · exact hndQ.sublist ((List.filter_sublist qs).map Question.id)
  rw [List.length_map] at hkeys
  omega

/-- C4: at finalization with `n` loaded questions, the sweep writes an
explicit not-answered record (sentinel selection `"n"`, lower-cased
correct answer, zero time) for every loaded question with no in-memory
AnswerRecord, and afterwards the number of durable answer records for the
submission equals `n`.  Hypotheses state the session's invariants on entry
to finalize: the durable answer keys mirror the in-memory answer keys, all
answered keys belong to loaded questions, and keys and question ids are
unique. -/
theorem finalize_durable_count_eq_questions (now : Int) (b : Bool)
    (s : ExamState) (sid : String)
    (hid : s.submissionId = some sid)
    (hmirror : durableKeys sid s.responsesDb = s.answers.map Prod.fst)
    (hsub : ∀ k ∈ s.answers.map Prod.fst, k ∈ s.questions.map Question.id)
    (hndA : (s.answers.map Prod.fst).Nodup)
    (hndQ : (s.questions.map Question.id).Nodup) :
    ((submitExam now b s).responsesDb.filter
      (fun r => r.submissionId == sid)).length = s.questions.length ∧
    ∀ q ∈ s.questions, q.id ∉ s.answers.map Prod.fst →
      sweepRecord sid q ∈ (submitExam now b s).responsesDb := by
  have hdb : (submitExam now b s).responsesDb =
      sweepUnanswered sid s.questions s.answers s.responsesDb := by
    simp [submitExam, hid]
  have hfresh : ∀ q ∈ s.questions.filter
      (fun q => !(s.answers.any (fun p => p.1 == q.id))),
      s.responsesDb.any
        (fun x => x.submissionId == sid && x.questionId == q.id) = false := by
    intro q hq
    obtain ⟨_, hpq⟩ := List.mem_filter.mp hq
    rw [Bool.not_eq_true'] at hpq
    apply Bool.not_eq_true _ |>.mp
    intro hc
    have hk := (any_key_iff_mem_durableKeys s.responsesDb sid q.id).mp hc
    rw [hmirror] at hk
    have : s.answers.any (fun p => p.1 == q.id) = true := by
      simp only [List.any_eq_true, beq_iff_eq]
      obtain ⟨p, hp, hpk⟩ := List.mem_map.mp hk
      exact ⟨p, hp, hpk⟩
    rw [this] at hpq
    exact Bool.true_eq_false.mp hpq
  have hndU : ((s.questions.filter
      (fun q => !(s.answers.any (fun p => p.1 == q.id)))).map Question.id).Nodup :=
    hndQ.sublist ((List.filter_sublist s.questions).map Question.id)
  have hswept : sweepUnanswered sid s.questions s.answers s.responsesDb =
      s.responsesDb ++
        (s.questions.filter
          (fun q => !(s.answers.any (fun p => p.1 == q.id)))).map (sweepRecord sid) := by
    unfold sweepUnanswered
    exact sweepFold_append sid _ s.responsesDb hfresh hndU
  constructor
  · rw [hdb, hswept, List.filter_append, List.length_append]
    have hall : ((s.questions.filter
        (fun q => !(s.answers.any (fun p => p.1 == q.id)))).map
          (sweepRecord sid)).filter (fun r => r.submissionId == sid) =
        (s.questions.filter
          (fun q => !(s.answers.any (fun p => p.1 == q.id)))).map (sweepRecord sid) := by
      apply List.filter_eq_self.mpr
      intro r hr
      obtain ⟨q, _, hqr⟩ := List.mem_map.mp hr
      rw [← hqr]
      simp [sweepRecord]
    rw [hall, List.length_map]
    have hlenfilter : (s.responsesDb.filter (fun r => r.submissionId == sid)).length =
        (s.answers.map Prod.fst).length := by
      have : (durableKeys sid s.responsesDb).length =
          (s.answers.map Prod.fst).length := by rw [hmirror]
      simpa [durableKeys, List.length_map] using this
    rw [hlenfilter]
    exact length_split_by_answer_keys s.questions s.answers hndQ hndA hsub
  · intro q hq hnk
    rw [hdb, hswept]
    apply List.mem_append_right
    apply List.mem_map.mpr
    refine ⟨q, List.mem_filter.mpr ⟨hq, ?_⟩, rfl⟩
    simp only [Bool.not_eq_true']
    apply Bool.not_eq_true _ |>.mp
    intro hc
    apply hnk
    simp only [List.any_eq_true, beq_iff_eq] at hc
    obtain ⟨p, hp, hpk⟩ := hc
    exact List.mem_map.mpr ⟨p, hp, hpk⟩

/-- C4 witness: the theorem on the session `exAnswered` (one of two
questions answered, the durable store mirroring it) finalized at time 9. -/
theorem finalize_durable_count_eq_questions_witness :
    (durableKeys "s1" exAnswered.responsesDb = exAnswered.answers.map Prod.fst) ∧
    (((submitExam 9 false exAnswered).responsesDb.filter
      (fun r => r.submissionId == "s1")).length = exAnswered.questions.length ∧
    ∀ q ∈ exAnswered.questions, q.id ∉ exAnswered.answers.map Prod.fst →
      sweepRecord "s1" q ∈ (submitExam 9 false exAnswered).responsesDb) :=
  ⟨by decide,
   finalize_durable_count_eq_questions 9 false exAnswered "s1"
     (by decide) (by decide) (by decide) (by decide) (by decide)⟩

/-- C5, counterexample: the fullscreen-change listeners are attached only
once the submission identity exists (lines 388–404), so a full-screen exit
while the identity is still absent is never observed: the event leaves the
state completely unchanged (not even the pending flag is set), and when
the identity later becomes available nothing is replayed — no auto-submit
is scheduled and no finalize ever results from the violation. -/
theorem pre_identity_violation_silently_dropped :
    fullscreenEvent false exStateNoId = exStateNoId ∧
    (fullscreenEvent false exStateNoId).pendingAutoSubmit = false ∧
    (createSubmissionSuccess "s1"
      (fullscreenEvent false exStateNoId)).scheduledAutoSubmits = 0 ∧
    (createSubmissionSuccess "s1"
      (fullscreenEvent false exStateNoId)).pendingAutoSubmit = false ∧
    (createSubmissionSuccess "s1"
      (fullscreenEvent false exStateNoId)).finalizeCount = 0 ∧
    runScheduledAutoSubmit 8 (createSubmissionSuccess "s1"
      (fullscreenEvent false exStateNoId)) =
      createSubmissionSuccess "s1" (fullscreenEvent false exStateNoId) := by decide

/-- C5 (amended): a proctoring violation occurring before the durable
submission identity exists is silently dropped, not queued: the
fullscreen-change listeners are attached only while the identity exists,
so the event is never delivered, the state is unchanged, and once the
identity arrives nothing is replayed and no finalize results from the
violation.  (The pending-queue branch of `handleFullscreenChange` and the
replay effect are consequently unreachable.)  A violation delivered after
the identity exists schedules the auto-submit directly and exactly once
— a duplicate exit event is a no-op — and delivering the single
scheduled auto-submit runs exactly one finalize sequence. -/
theorem pre_identity_violation_not_queued (now : Int) (sid : String)
    (s : ExamState) (b : Bool)
    (hid : s.submissionId = none) (hfs : s.isFullscreenRef = true)
    (hpend : s.pendingAutoSubmit = false) (hsch : s.scheduledAutoSubmits = 0) :
    fullscreenEvent b s = s ∧
    (createSubmissionSuccess sid (fullscreenEvent false s)).scheduledAutoSubmits = 0 ∧
    (createSubmissionSuccess sid (fullscreenEvent false s)).pendingAutoSubmit = false ∧
    (createSubmissionSuccess sid (fullscreenEvent false s)).finalizeCount =
      s.finalizeCount ∧
    runScheduledAutoSubmit now (createSubmissionSuccess sid (fullscreenEvent false s)) =
      createSubmissionSuccess sid (fullscreenEvent false s) ∧
    fullscreenEvent false (createSubmissionSuccess sid s) =
      handleFullscreenChange false (createSubmissionSuccess sid s) ∧
    (fullscreenEvent false (createSubmissionSuccess sid s)).scheduledAutoSubmits = 1 ∧
    (fullscreenEvent false (createSubmissionSuccess sid s)).pendingAutoSubmit = false ∧
    fullscreenEvent false (fullscreenEvent false (createSubmissionSuccess sid s)) =
      fullscreenEvent false (createSubmissionSuccess sid s) ∧
    (runScheduledAutoSubmit now (fullscreenEvent false
      (createSubmissionSuccess sid s))).finalizeCount = s.finalizeCount + 1 ∧
    (runScheduledAutoSubmit now (fullscreenEvent false
      (createSubmissionSuccess sid s))).scheduledAutoSubmits = 0 ∧
    runScheduledAutoSubmit now (runScheduledAutoSubmit now (fullscreenEvent false
      (createSubmissionSuccess sid s))) =
      runScheduledAutoSubmit now (fullscreenEvent false
        (createSubmissionSuccess sid s)) := by
  refine ⟨?_, ?_, ?_, ?_, ?_, ?_, ?_, ?_, ?_, ?_, ?_, ?_⟩ <;>
    simp [fullscreenEvent, listenersAttached, handleFullscreenChange,
      createSubmissionSuccess, pendingReplayEffect, runScheduledAutoSubmit,
      submitExam, hid, hfs, hpend, hsch]

/-- C5 witness: the amended theorem on the compliant identity-less
session `exStateNoId`. -/
theorem pre_identity_violation_not_queued_witness :
    (exStateNoId.submissionId = none ∧ exStateNoId.isFullscreenRef = true ∧
     exStateNoId.pendingAutoSubmit = false ∧
     exStateNoId.scheduledAutoSubmits = 0) ∧
    (fullscreenEvent false exStateNoId = exStateNoId ∧
    (createSubmissionSuccess "s1"
      (fullscreenEvent false exStateNoId)).scheduledAutoSubmits = 0 ∧
    (createSubmissionSuccess "s1"
      (fullscreenEvent false exStateNoId)).pendingAutoSubmit = false ∧
    (createSubmissionSuccess "s1"
      (fullscreenEvent false exStateNoId)).finalizeCount =
      exStateNoId.finalizeCount ∧
    runScheduledAutoSubmit 8 (createSubmissionSuccess "s1"
      (fullscreenEvent false exStateNoId)) =
      createSubmissionSuccess "s1" (fullscreenEvent false exStateNoId) ∧
    fullscreenEvent false (createSubmissionSuccess "s1" exStateNoId) =
      handleFullscreenChange false (createSubmissionSuccess "s1" exStateNoId) ∧
    (fullscreenEvent false
      (createSubmissionSuccess "s1" exStateNoId)).scheduledAutoSubmits = 1 ∧
    (fullscreenEvent false
      (createSubmissionSuccess "s1" exStateNoId)).pendingAutoSubmit = false ∧
    fullscreenEvent false (fullscreenEvent false
      (createSubmissionSuccess "s1" exStateNoId)) =
      fullscreenEvent false (createSubmissionSuccess "s1" exStateNoId) ∧
    (runScheduledAutoSubmit 8 (fullscreenEvent false
      (createSubmissionSuccess "s1" exStateNoId))).finalizeCount =
      exStateNoId.finalizeCount + 1 ∧
    (runScheduledAutoSubmit 8 (fullscreenEvent false
      (createSubmissionSuccess "s1" exStateNoId))).scheduledAutoSubmits = 0 ∧
    runScheduledAutoSubmit 8 (runScheduledAutoSubmit 8 (fullscreenEvent false
      (createSubmissionSuccess "s1" exStateNoId))) =
      runScheduledAutoSubmit 8 (fullscreenEvent false
        (createSubmissionSuccess "s1" exStateNoId))) :=
  ⟨⟨rfl, rfl, rfl, rfl⟩,
   pre_identity_violation_not_queued 8 "s1" exStateNoId false rfl rfl rfl rfl⟩

/-- C10: a registration whose roll number matches an existing student
record proceeds with that record's identity: the `students` table is left
unchanged (the form's name and email are not written), and the
duplicate-submission check and the resulting outcome use the existing
record's id. -/
theorem registration_existing_roll_reuses_identity
    (students : List StudentRegistration.StudentRec)
    (submissions : List StudentRegistration.SubmissionRec)
    (examId : String) (f : StudentRegistration.RegForm) (newId : String)
    (st : StudentRegistration.StudentRec)
    (hname : (trimStr f.name == "") = false)
    (hemail : (trimStr f.email == "") = false)
    (hroll : (trimStr f.rollNumber == "") = false)
    (hat : containsChar f.email '@' = true)
    (hfind : students.find? (fun s => s.rollNumber == f.rollNumber) = some st) :
    (StudentRegistration.handleSubmit students submissions examId f newId).2 =
      students ∧
    (StudentRegistration.handleSubmit students submissions examId f newId).1 =
      (if submissions.any
          (fun sb => sb.studentId == st.id && sb.examId == examId) then
        StudentRegistration.RegOutcome.alreadySubmitted
      else
        StudentRegistration.RegOutcome.success f.name f.email f.rollNumber st.id) := by
  unfold StudentRegistration.handleSubmit
  simp [hname, hemail, hroll, hat, hfind]
  split <;> simp_all

/-- C10 witness: the theorem on a one-student table whose stored name and
email differ from the form entries. -/
theorem registration_existing_roll_reuses_identity_witness :
    ([⟨"id9", "Old Name", "old@x", "R1"⟩] :
        List StudentRegistration.StudentRec).find?
      (fun s => s.rollNumber == "R1") = some ⟨"id9", "Old Name", "old@x", "R1"⟩ ∧
    ((StudentRegistration.handleSubmit
        [⟨"id9", "Old Name", "old@x", "R1"⟩] [] "e1"
        ⟨"New Name", "new@x", "R1"⟩ "fresh").2 =
      [⟨"id9", "Old Name", "old@x", "R1"⟩] ∧
    (StudentRegistration.handleSubmit
        [⟨"id9", "Old Name", "old@x", "R1"⟩] [] "e1"
        ⟨"New Name", "new@x", "R1"⟩ "fresh").1 =
      (if ([] : List StudentRegistration.SubmissionRec).any
          (fun sb => sb.studentId == "id9" && sb.examId == "e1") then
        StudentRegistration.RegOutcome.alreadySubmitted
      else
        StudentRegistration.RegOutcome.success "New Name" "new@x" "R1" "id9")) :=
  ⟨by decide,
   registration_existing_roll_reuses_identity
     [⟨"id9", "Old Name", "old@x", "R1"⟩] [] "e1"
     ⟨"New Name", "new@x", "R1"⟩ "fresh" ⟨"id9", "Old Name", "old@x", "R1"⟩
     (by decide) (by decide) (by decide) (by decide) (by decide)⟩

